import Mathlib

/-!
Shallow embedding of `dnscompare.py` (NielsH/DNSCompare), a tool that
compares DNS responses from two nameservers for a list of
domain/record-type pairs read from a file.

Modelling conventions:
- Python strings are Lean `String`s; the colorama color codes
  (`Fore.YELLOW` etc.) are given as explicit character lists so that
  prefix computations unfold definitionally.
- A DNS response list (`primary_response` / `secondary_response`) is a
  `List (Option String)`: `none` is Python's `None` timeout sentinel.
- Python `str.split(sep)` for a one-character separator is `splitChar`.
- Python `str.format` with single-digit positional placeholders is
  `pyFormat`; it returns `Except` because an out-of-range placeholder
  index raises `IndexError` in Python.
- `exit(...)` and uncaught exceptions are modelled with `Except String`:
  `.error msg` means the process terminates.
- Network effects are abstracted by a `ResolverOutcome` oracle giving,
  per query, which of the outcomes of `resolver.query` occurred
  (answers / NoAnswer / NoNameservers / NoMetaqueries /
  UnknownRdatatype / Timeout).
-/

namespace DNSCompare

namespace Fore

/-- Colorama `Fore.YELLOW`, the escape sequence ESC `[33m`. -/
def YELLOW : String :=
  String.mk [Char.ofNat 27, Char.ofNat 91, Char.ofNat 51, Char.ofNat 51, Char.ofNat 109]

/-- Colorama `Fore.GREEN`, the escape sequence ESC `[32m`. -/
def GREEN : String :=
  String.mk [Char.ofNat 27, Char.ofNat 91, Char.ofNat 51, Char.ofNat 50, Char.ofNat 109]

/-- Colorama `Fore.RED`, the escape sequence ESC `[31m`. -/
def RED : String :=
  String.mk [Char.ofNat 27, Char.ofNat 91, Char.ofNat 51, Char.ofNat 49, Char.ofNat 109]

end Fore

/-- Boolean prefix test on character lists: `listPrefix p l` is true iff
`p` is a prefix of `l`. -/
def listPrefix : List Char → List Char → Bool
  | [], _ => true
  | _ :: _, [] => false
  | p :: ps, c :: cs => p == c && listPrefix ps cs

/-- Python `s.startswith(p)`. -/
def strStartsWith (s p : String) : Bool :=
  listPrefix p.data s.data

/-- Helper for `splitChar`: scans the characters, `acc` holds the
current (reversed) field. -/
def splitCharAux (sep : Char) : List Char → List Char → List String
  | [], acc => [String.mk acc.reverse]
  | c :: cs, acc =>
    if c == sep then String.mk acc.reverse :: splitCharAux sep cs []
    else splitCharAux sep cs (c :: acc)

/-- Python `s.split(sep)` for a one-character separator `sep`:
`"a  b".split(" ") = ["a", "", "b"]`, `"ab".split(" ") = ["ab"]`,
`"".split(" ") = [""]`. -/
def splitChar (sep : Char) (s : String) : List String :=
  splitCharAux sep s.data []

/-- Python truthiness of a `str`-or-`None` value: `None` and the empty
string are falsy, every other string is truthy. -/
def truthy : Option String → Bool
  | none => false
  | some s => !(s == "")

/-- Python `'\n'.join(i for i in xs if i)` as used in
`compare_dns_response`: falsy entries (`None` and empty strings) are
dropped, the rest are joined with newlines. -/
def joinTruthy (xs : List (Option String)) : String :=
  String.intercalate "\n" ((xs.filter truthy).map (fun o => o.getD ""))

/-- Strict code-point lexicographic order on character lists, the order
Python uses to compare `str` values. -/
def lexLt : List Char → List Char → Bool
  | [], [] => false
  | [], _ :: _ => true
  | _ :: _, [] => false
  | a :: as, b :: bs =>
    if a.toNat < b.toNat then true
    else if b.toNat < a.toNat then false
    else lexLt as bs

/-- Python `a <= b` on strings: code-point lexicographic. -/
def strLe (a b : String) : Bool :=
  !(lexLt b.data a.data)

/-- Insert a string into an already sorted list, keeping it sorted by
the code-point lexicographic order (Python's `str` order). -/
def insertSorted (x : String) : List String → List String
  | [] => [x]
  | y :: ys => if strLe x y then x :: y :: ys else y :: insertSorted x ys

/-- Python `sorted` on a list of strings: ascending, code-point
lexicographic (insertion sort). -/
def pySorted : List String → List String
  | [] => []
  | x :: xs => insertSorted x (pySorted xs)

/-- Helper for `pyFormat`: scans the template characters, replacing each
single-digit positional placeholder by the corresponding argument; a
placeholder index with no argument is Python's `IndexError`. Braces are
written via their code points (123 and 125). -/
def formatGo (args : List String) : List Char → Except String String
  | [] => .ok ""
  | c1 :: d :: c2 :: rest =>
    if c1 == Char.ofNat 123 && d.isDigit && c2 == Char.ofNat 125 then
      match args.get? (d.toNat - 48) with
      | some s => (fun t => s ++ t) <$> formatGo args rest
      | none =>
        .error ("IndexError: Replacement index " ++ Nat.repr (d.toNat - 48)
          ++ " out of range for positional args tuple")
    else (fun t => String.mk [c1] ++ t) <$> formatGo args (d :: c2 :: rest)
  | c :: rest => (fun t => String.mk [c] ++ t) <$> formatGo args rest

/-- Python `template.format(*args)` for templates whose only braces are
single-digit positional placeholders. Raises (returns `.error`)
`IndexError` when a placeholder index is out of range, exactly as
Python's `str.format` does. -/
def pyFormat (template : String) (args : List String) : Except String String :=
  formatGo args template.data

/-- The sentinel value the code returns for `NoAnswer` and
`NoNameservers`: the Python literal `'\'\''`, i.e. the two-character
string made of two apostrophes (code point 39) — not the empty string. -/
def noAnswerSentinel : String :=
  String.mk [Char.ofNat 39, Char.ofNat 39]

/-- Which outcome the underlying `resolver.query` call has for one
(nameserver, domain, record type) triple: records found, or one of the
exceptions caught in `dns_query` (dnscompare.py lines 78-93). -/
inductive ResolverOutcome where
  | answers (records : List String)
  | noAnswer
  | noNameservers
  | noMetaqueries
  | unknownRdatatype
  | timeout
deriving DecidableEq, Repr

/-- The function `dns_query` (dnscompare.py lines 76-93). The network
effect is abstracted by `outcome`. On success returns the pair
(lines printed to stdout, response list); `.error` models `exit(...)`
or an uncaught exception terminating the process. The timeout branch
reproduces the code's `print('{0}{1}Error! Timeout while querying the
{2} record of {3} at nameserver {4}'.format(Fore.RED, record_type,
domain, nameserver))`, whose format call supplies four arguments for
five placeholders. -/
def dns_query (nameserver domain record_type : String)
    (outcome : ResolverOutcome) : Except String (List String × List (Option String)) :=
  match outcome with
  | .answers records => .ok ([], (pySorted records).map some)
  | .noAnswer => .ok ([], [some noAnswerSentinel])
  | .noNameservers => .ok ([], [some noAnswerSentinel])
  | .noMetaqueries =>
    .error (Fore.RED ++ "You used an invalid query type. Probably ANY, which is not supported. Exiting.\n")
  | .unknownRdatatype =>
    .error (Fore.RED ++ domain ++ " contains invalid DNS record type: " ++ record_type ++ "\nExiting.")
  | .timeout =>
    match pyFormat "{0}{1}Error! Timeout while querying the {2} record of {3} at nameserver {4}"
        [Fore.RED, record_type, domain, nameserver] with
    | .error e => .error e
    | .ok msg => .ok ([msg], [none])

/-- Result of parsing one retained input line: the dict
`{'domain': ..., 'records': ...}` built by `get_line_data`. -/
structure LineData where
  domain : String
  records : List String
deriving DecidableEq, Repr

/-- The function `get_line_data` (dnscompare.py lines 96-107):
`l = line.split(' ')`, `domain = l[0]`, `records = l[1].split(',')`;
the `IndexError` from `l[1]` when the line has no space is caught and
turned into `exit(...)`. Fields after `l[1]` are ignored. -/
def get_line_data (line : String) : Except String LineData :=
  match splitChar (Char.ofNat 32) line with
  | domain :: second :: _ => .ok ⟨domain, splitChar (Char.ofNat 44) second⟩
  | _ => .error (Fore.RED ++ "Something went wrong while parsing the input_file.\nThe line said: " ++ line ++ "\nExiting.\n")

/-- Whitespace characters stripped by Python `str.strip()` (ASCII
range): space, tab, newline, carriage return, vertical tab, form
feed. -/
def isPySpace (c : Char) : Bool :=
  c == Char.ofNat 32 || c == Char.ofNat 9 || c == Char.ofNat 10
    || c == Char.ofNat 13 || c == Char.ofNat 11 || c == Char.ofNat 12

/-- Python `line.strip()`: remove leading and trailing whitespace. -/
def pyStrip (s : String) : String :=
  String.mk (((s.data.dropWhile isPySpace).reverse.dropWhile isPySpace).reverse)

/-- The generator `valid_lines` (dnscompare.py lines 110-114): strip
each line, keep it when non-empty and not starting with the hash
character (code point 35). -/
def valid_lines (lines : List String) : List String :=
  lines.filterMap (fun line =>
    let l := pyStrip line
    if !(l == "") && !(strStartsWith l (String.mk [Char.ofNat 35])) then some l else none)

/-- The first loop of `parse_data` (dnscompare.py lines 38-40): parse
every retained line with `get_line_data`, materializing the list;
`exit` inside `get_line_data` aborts at the first malformed line. -/
def parseAll : List String → Except String (List LineData)
  | [] => .ok []
  | l :: ls =>
    match get_line_data l with
    | .error e => .error e
    | .ok d =>
      match parseAll ls with
      | .error e => .error e
      | .ok ds => .ok (d :: ds)

/-- One DNS query issued on the network, identified by the nameserver
it is sent to and the (domain, record type) pair. -/
structure QueryCall where
  nameserver : String
  domain : String
  recordType : String
deriving DecidableEq, Repr

/-- Which of the three validation checks `validate` performs. -/
inductive Check where
  | primaryIp
  | secondaryIp
  | fileAccess
deriving DecidableEq, Repr

/-- The function `validate` (dnscompare.py lines 117-124), instrumented
with the list of checks actually evaluated: the `if/elif` chain
evaluates `valid_ip(primary_ns)` first, `valid_ip(secondary_ns)` only
when the first passed, and `accessible_file(input_file)` only when both
passed. The Booleans are the outcomes of those library-backed checks;
the `Option String` is `some msg` when the code calls `exit(msg)`. -/
def validate (primary_ok secondary_ok file_ok : Bool) : List Check × Option String :=
  if !primary_ok then
    ([.primaryIp], some "Invalid IP for primary nameserver (-p flag)")
  else if !secondary_ok then
    ([.primaryIp, .secondaryIp], some "Invalid IP for secondary nameserver (-s flag)")
  else if !file_ok then
    ([.primaryIp, .secondaryIp, .fileAccess], some "Unable to access input file (-f flag)")
  else
    ([.primaryIp, .secondaryIp, .fileAccess], none)

/-- Report outcome categories of the comparator. -/
inductive Outcome where
  | success
  | warning
  | error
deriving DecidableEq, Repr

/-- Classification branch of `compare_dns_response` (dnscompare.py
lines 55-73): `None` in either response wins first and gives Warning;
otherwise list equality gives Success, anything else Error. -/
def classify (primary_response secondary_response : List (Option String)) : Outcome :=
  if none ∈ primary_response ∨ none ∈ secondary_response then .warning
  else if primary_response = secondary_response then .success
  else .error

/-- The function `compare_dns_response` (dnscompare.py lines 55-73),
returning the colored report string that the Python code returns. -/
def compare_dns_response (domain record_type : String)
    (primary_response secondary_response : List (Option String)) : String :=
  if none ∈ primary_response ∨ none ∈ secondary_response then
    Fore.YELLOW ++ "Warning! At least 1 response was None, which means we were unable to get any type of response. This could have happened because of an error.\nPlease manually verify the check for: " ++ domain ++ " - " ++ record_type ++ " record.\nPrimary NS: " ++ joinTruthy primary_response ++ "\nSecondary NS: " ++ joinTruthy secondary_response ++ "\n"
  else if primary_response = secondary_response then
    Fore.GREEN ++ "Success! " ++ domain ++ " - " ++ record_type ++ " record.\nResponse:\n" ++ joinTruthy primary_response ++ "\n"
  else
    Fore.RED ++ "Error! Difference in DNS responses for " ++ domain ++ " - " ++ record_type ++ " record.\nPrimary NS: " ++ joinTruthy primary_response ++ "\nSecondary NS: " ++ joinTruthy secondary_response ++ "\n"

/-- The output step of `parse_data` (dnscompare.py lines 50-52): a
result is skipped when it starts with `Fore.GREEN` and quiet mode is
on, otherwise it is printed. Returns the list of lines printed. -/
def printResult (quiet_mode : Bool) (result : String) : List String :=
  if strStartsWith result Fore.GREEN && quiet_mode then [] else [result]

/-- Inner loop of `parse_data` (dnscompare.py lines 45-52) over the
record types of one line: query primary then secondary, compare, print
unless suppressed. Returns (queries issued, lines printed, fatal exit
message if any). A fatal `dns_query` outcome stops the run but the
queries already sent remain in the trace. -/
def runRecordTypes (primary_ns secondary_ns : String) (quiet_mode : Bool)
    (oracle : String → String → String → ResolverOutcome) (domain : String) :
    List String → List QueryCall × List String × Option String
  | [] => ([], [], none)
  | record_type :: rts =>
    match dns_query primary_ns domain record_type (oracle primary_ns domain record_type) with
    | .error e => ([⟨primary_ns, domain, record_type⟩], [], some e)
    | .ok (out1, primary_response) =>
      match dns_query secondary_ns domain record_type (oracle secondary_ns domain record_type) with
      | .error e =>
        ([⟨primary_ns, domain, record_type⟩, ⟨secondary_ns, domain, record_type⟩], out1, some e)
      | .ok (out2, secondary_response) =>
        let rest := runRecordTypes primary_ns secondary_ns quiet_mode oracle domain rts
        (⟨primary_ns, domain, record_type⟩ :: ⟨secondary_ns, domain, record_type⟩ :: rest.1,
         out1 ++ out2
           ++ printResult quiet_mode
                (compare_dns_response domain record_type primary_response secondary_response)
           ++ rest.2.1,
         rest.2.2)

/-- Outer loop of `parse_data` (dnscompare.py lines 42-52) over the
parsed lines. -/
def runQueries (primary_ns secondary_ns : String) (quiet_mode : Bool)
    (oracle : String → String → String → ResolverOutcome) :
    List LineData → List QueryCall × List String × Option String
  | [] => ([], [], none)
  | d :: ds =>
    let r := runRecordTypes primary_ns secondary_ns quiet_mode oracle d.domain d.records
    match r.2.2 with
    | some _ => r
    | none =>
      let rest := runQueries primary_ns secondary_ns quiet_mode oracle ds
      (r.1 ++ rest.1, r.2.1 ++ rest.2.1, rest.2.2)

/-- The function `parse_data` (dnscompare.py lines 35-52): parse all
retained lines into a list first, then run the query/compare/print
loop. Returns (queries issued, lines printed, fatal exit message). -/
def parse_data (primary_ns secondary_ns : String) (fileLines : List String)
    (quiet_mode : Bool) (oracle : String → String → String → ResolverOutcome) :
    List QueryCall × List String × Option String :=
  match parseAll (valid_lines fileLines) with
  | .error e => ([], [], some e)
  | .ok data => runQueries primary_ns secondary_ns quiet_mode oracle data

theorem listPrefix_append (p r : List Char) : listPrefix p (p ++ r) = true := by
  induction p with
  | nil => rfl
  | cons c cs ih => simp [listPrefix, ih]

theorem strStartsWith_yellow_not_green (rest : String) :
    strStartsWith (Fore.YELLOW ++ rest) Fore.GREEN = false := by
  show listPrefix Fore.GREEN.data (Fore.YELLOW ++ rest).data = false
  rw [String.data_append]
  rfl

theorem strStartsWith_red_not_green (rest : String) :
    strStartsWith (Fore.RED ++ rest) Fore.GREEN = false := by
  show listPrefix Fore.GREEN.data (Fore.RED ++ rest).data = false
  rw [String.data_append]
  rfl

theorem strStartsWith_green_append (rest : String) :
    strStartsWith (Fore.GREEN ++ rest) Fore.GREEN = true := by
  show listPrefix Fore.GREEN.data (Fore.GREEN ++ rest).data = true
  rw [String.data_append]
  exact listPrefix_append _ _

theorem listPrefix_green_yellow (r : List Char) :
    listPrefix Fore.GREEN.data (Fore.YELLOW.data ++ r) = false := rfl

theorem listPrefix_green_red (r : List Char) :
    listPrefix Fore.GREEN.data (Fore.RED.data ++ r) = false := rfl

/-- The comparator's report string starts with `Fore.GREEN` exactly when
the classification of the same pair of responses is Success. -/
theorem compare_startsGreen_eq (domain record_type : String)
    (p s : List (Option String)) :
    strStartsWith (compare_dns_response domain record_type p s) Fore.GREEN
      = (classify p s == Outcome.success) := by
  unfold compare_dns_response classify strStartsWith
  by_cases h1 : none ∈ p ∨ none ∈ s
  · simp only [if_pos h1, String.data_append, List.append_assoc]
    exact listPrefix_green_yellow _
  · by_cases h2 : p = s
    · simp only [if_neg h1, if_pos h2, String.data_append, List.append_assoc]
      exact listPrefix_append _ _
    · simp only [if_neg h1, if_neg h2, String.data_append, List.append_assoc]
      exact listPrefix_green_red _

/-- C3: if either result sequence contains the null (timeout) sentinel
`none`, the comparator classifies the pair as Warning — never Success —
regardless of the other sequence's content, including when the two
sequences are equal (first match wins). -/
theorem C3_null_sentinel_gives_warning (p s : List (Option String))
    (h : none ∈ p ∨ none ∈ s) :
    classify p s = Outcome.warning ∧ classify p s ≠ Outcome.success := by
  unfold classify
  rw [if_pos h]
  exact ⟨rfl, by simp⟩

/-- C3 witness: both sequences equal to `[none]` (element-wise equal)
still classify as Warning, not Success. -/
theorem C3_null_sentinel_gives_warning_witness :
    classify [none] [none] = Outcome.warning ∧ classify [none] [none] ≠ Outcome.success :=
  C3_null_sentinel_gives_warning [none] [none] (Or.inl (by decide))

/-- C4: for result sequences free of the null sentinel, classification
is Success exactly when the two lists are element-wise equal (same
length, same order, same values) and Error otherwise. -/
theorem C4_equal_iff_success (p s : List (Option String))
    (hp : none ∉ p) (hs : none ∉ s) :
    classify p s = (if p = s then Outcome.success else Outcome.error) := by
  unfold classify
  rw [if_neg (by exact fun h => h.elim hp hs)]

/-- C4 witness: sequences with the same distinct elements but different
multiplicities are not equal, hence classify as Error. -/
theorem C4_equal_iff_success_witness :
    classify [some "A", some "A", some "B"] [some "A", some "B"]
      = (if ([some "A", some "A", some "B"] : List (Option String)) = [some "A", some "B"]
         then Outcome.success else Outcome.error) :=
  C4_equal_iff_success [some "A", some "A", some "B"] [some "A", some "B"]
    (by decide) (by decide)

/-- C5: in quiet mode a Success report produces no output while Warning
and Error reports are always printed, and in those cases the quiet-mode
output equals the non-quiet output (which always prints the report). -/
theorem C5_quiet_mode_output (domain record_type : String)
    (p s : List (Option String)) :
    (classify p s = Outcome.success →
        printResult true (compare_dns_response domain record_type p s) = [] ∧
        printResult false (compare_dns_response domain record_type p s)
          = [compare_dns_response domain record_type p s]) ∧
    (classify p s ≠ Outcome.success →
        printResult true (compare_dns_response domain record_type p s)
          = [compare_dns_response domain record_type p s] ∧
        printResult true (compare_dns_response domain record_type p s)
          = printResult false (compare_dns_response domain record_type p s)) := by
  have hg := compare_startsGreen_eq domain record_type p s
  constructor
  · intro hcl
    rw [hcl] at hg
    simp only [printResult, hg]
    simp
  · intro hcl
    have : (classify p s == Outcome.success) = false := by
      simp [hcl]
    rw [this] at hg
    simp only [printResult, hg]
    simp

/-- C5 witness: concrete Success pair is suppressed in quiet mode and
printed otherwise; concrete Warning pair is printed in quiet mode just
as in non-quiet mode. -/
theorem C5_quiet_mode_output_witness :
    (printResult true (compare_dns_response "example.org" "A" [some "1.2.3.4"] [some "1.2.3.4"]) = [] ∧
     printResult false (compare_dns_response "example.org" "A" [some "1.2.3.4"] [some "1.2.3.4"])
       = [compare_dns_response "example.org" "A" [some "1.2.3.4"] [some "1.2.3.4"]]) ∧
    (printResult true (compare_dns_response "example.org" "A" [none] [some "1.2.3.4"])
       = [compare_dns_response "example.org" "A" [none] [some "1.2.3.4"]]) :=
  ⟨(C5_quiet_mode_output "example.org" "A" [some "1.2.3.4"] [some "1.2.3.4"]).1 (by decide),
   ((C5_quiet_mode_output "example.org" "A" [none] [some "1.2.3.4"]).2 (by decide)).1⟩

/-- C1: the claim says a timed-out query is non-fatal (warning printed,
`[None]` returned, run continues). The code's timeout handler instead
calls `str.format` with five placeholders but only four arguments, so
the handler raises `IndexError` and the run aborts: for every
nameserver, domain and record type, the timeout branch evaluates to a
fatal error, never to `.ok (warnings, [none])`. -/
theorem C1_timeout_raises_index_error (nameserver domain record_type : String) :
    dns_query nameserver domain record_type ResolverOutcome.timeout
      = Except.error "IndexError: Replacement index 4 out of range for positional args tuple" := by
  rfl

/-- C2 counterexample: on a NoAnswer outcome the code returns a
single-element sequence whose element is the two-apostrophe string
`noAnswerSentinel`, which is not the empty string, so `dns_query` does
not return `[some ""]` as the claim states. -/
theorem C2_counterexample :
    dns_query "1.2.3.4" "example.org" "A" ResolverOutcome.noAnswer
        = Except.ok ([], [some noAnswerSentinel]) ∧
    noAnswerSentinel ≠ "" ∧
    dns_query "1.2.3.4" "example.org" "A" ResolverOutcome.noAnswer
        ≠ Except.ok ([], [some ""]) := by
  refine ⟨rfl, by decide, fun h => ?_⟩
  have h2 : (([] : List String), [some noAnswerSentinel])
      = (([] : List String), [some ""]) := Except.ok.inj h
  exact absurd h2 (by decide)

/-- C2 amended: for NoAnswer and NoNameservers outcomes, `dns_query`
returns (printing nothing) a single-element sequence whose only element
is the two-character string of two apostrophes, and that sentinel is
treated as an empty answer rather than a failure: it is not the null
sentinel, and two such results classify as Success. -/
theorem C2_no_answer_sentinel (nameserver domain record_type : String) :
    dns_query nameserver domain record_type ResolverOutcome.noAnswer
        = Except.ok ([], [some noAnswerSentinel]) ∧
    dns_query nameserver domain record_type ResolverOutcome.noNameservers
        = Except.ok ([], [some noAnswerSentinel]) ∧
    none ∉ [some noAnswerSentinel] ∧
    classify [some noAnswerSentinel] [some noAnswerSentinel] = Outcome.success := by
  exact ⟨rfl, rfl, by decide, by decide⟩

theorem get_line_data_error_of_short (l : String)
    (h : (splitChar (Char.ofNat 32) l).length ≤ 1) :
    ∃ e, get_line_data l = Except.error e := by
  unfold get_line_data
  cases hs : splitChar (Char.ofNat 32) l with
  | nil => exact ⟨_, rfl⟩
  | cons a t =>
    cases t with
    | nil => exact ⟨_, rfl⟩
    | cons b t2 => rw [hs] at h; simp at h

theorem parseAll_error_of_mem (ls : List String) (l : String)
    (hl : l ∈ ls) (e : String) (he : get_line_data l = Except.error e) :
    ∃ e2, parseAll ls = Except.error e2 := by
  induction ls with
  | nil => cases hl
  | cons a as ih =>
    rcases List.mem_cons.mp hl with h | h
    · subst h
      exact ⟨e, by simp [parseAll, he]⟩
    · obtain ⟨e2, h2⟩ := ih h
      cases hga : get_line_data a with
      | error e3 => exact ⟨e3, by simp [parseAll, hga]⟩
      | ok d => exact ⟨e2, by simp [parseAll, hga, h2]⟩

/-- C6: when some retained line of the input file is malformed (has no
space, so no second field), the whole run aborts during the parse
phase: no query is issued, nothing is printed, and the process exits
fatally — queries only ever happen after every line parsed. -/
theorem C6_malformed_line_prevents_queries (primary_ns secondary_ns : String)
    (fileLines : List String) (quiet_mode : Bool)
    (oracle : String → String → String → ResolverOutcome)
    (h : ∃ l ∈ valid_lines fileLines, (splitChar (Char.ofNat 32) l).length ≤ 1) :
    (parse_data primary_ns secondary_ns fileLines quiet_mode oracle).1 = [] ∧
    (parse_data primary_ns secondary_ns fileLines quiet_mode oracle).2.1 = [] ∧
    (parse_data primary_ns secondary_ns fileLines quiet_mode oracle).2.2.isSome = true := by
  obtain ⟨l, hl, hshort⟩ := h
  obtain ⟨e, he⟩ := get_line_data_error_of_short l hshort
  obtain ⟨e2, h2⟩ := parseAll_error_of_mem (valid_lines fileLines) l hl e he
  unfold parse_data
  rw [h2]
  exact ⟨rfl, rfl, rfl⟩

/-- C6 witness: a file whose only line is `example.org` (no space)
produces no queries, no output, and a fatal exit, whatever the
nameservers, quiet flag and resolver behavior. -/
theorem C6_malformed_line_prevents_queries_witness :
    (parse_data "1.1.1.1" "8.8.8.8" ["example.org"] false
        (fun _ _ _ => ResolverOutcome.noAnswer)).1 = [] ∧
    (parse_data "1.1.1.1" "8.8.8.8" ["example.org"] false
        (fun _ _ _ => ResolverOutcome.noAnswer)).2.1 = [] ∧
    (parse_data "1.1.1.1" "8.8.8.8" ["example.org"] false
        (fun _ _ _ => ResolverOutcome.noAnswer)).2.2.isSome = true :=
  C6_malformed_line_prevents_queries "1.1.1.1" "8.8.8.8" ["example.org"] false
    (fun _ _ _ => ResolverOutcome.noAnswer)
    ⟨"example.org", by decide, by decide⟩

/-- C7 counterexample: on the line `example.org A,MX extra` the text
after the first space does not all go to the record-type field — the
code splits on every space and keeps only the second field, so the
record types are `["A", "MX"]`, not the comma-split of `"A,MX extra"`
(which would be `["A", "MX extra"]`). -/
theorem C7_counterexample :
    get_line_data "example.org A,MX extra"
        = Except.ok ⟨"example.org", ["A", "MX"]⟩ ∧
    splitChar (Char.ofNat 44) "A,MX extra" = ["A", "MX extra"] ∧
    get_line_data "example.org A,MX extra"
        ≠ Except.ok ⟨"example.org", ["A", "MX extra"]⟩ := by
  refine ⟨rfl, by decide, fun h => ?_⟩
  exact absurd (Except.ok.inj h) (by decide)

/-- C7 amended: the parser splits the retained line on every space; the
domain is the field before the first space and the record-type list is
the comma-split of the field between the first and second space, in
order; text after the second space is discarded. -/
theorem C7_first_two_fields (line domain second : String) (rest : List String)
    (h : splitChar (Char.ofNat 32) line = domain :: second :: rest) :
    get_line_data line = Except.ok ⟨domain, splitChar (Char.ofNat 44) second⟩ := by
  unfold get_line_data
  rw [h]

/-- C7 witness: the spec's example line `example.org A,MX` parses to
domain `example.org` with record types `["A", "MX"]` in that order. -/
theorem C7_first_two_fields_witness :
    get_line_data "example.org A,MX"
        = Except.ok ⟨"example.org", splitChar (Char.ofNat 44) "A,MX"⟩ ∧
    splitChar (Char.ofNat 44) "A,MX" = ["A", "MX"] :=
  ⟨C7_first_two_fields "example.org A,MX" "example.org" "A,MX" [] (by decide),
   by decide⟩

set_option maxRecDepth 8192 in
/-- C8 counterexample: in the Warning message, a null entry is not
rendered as an empty line — it is dropped entirely. For the pair
`[some "a", none, some "b"]` / `[some "x"]` the message shows
`a\nb`, not `a\n\nb` as rendering the null as an empty line would. -/
theorem C8_counterexample :
    compare_dns_response "example.org" "A" [some "a", none, some "b"] [some "x"]
        = Fore.YELLOW ++ "Warning! At least 1 response was None, which means we were unable to get any type of response. This could have happened because of an error.\nPlease manually verify the check for: example.org - A record.\nPrimary NS: a\nb\nSecondary NS: x\n" ∧
    compare_dns_response "example.org" "A" [some "a", none, some "b"] [some "x"]
        ≠ Fore.YELLOW ++ "Warning! At least 1 response was None, which means we were unable to get any type of response. This could have happened because of an error.\nPlease manually verify the check for: example.org - A record.\nPrimary NS: a\n\nb\nSecondary NS: x\n" := by
  exact ⟨by decide, by decide⟩

/-- C8 amended: every Warning message lists both result sequences, but
null entries (like all falsy entries) are omitted from the listing
rather than rendered as empty lines; in particular a `[none]` sequence
renders as the empty string. -/
theorem C8_warning_message_shape (domain record_type : String)
    (p s : List (Option String)) (h : none ∈ p ∨ none ∈ s) :
    compare_dns_response domain record_type p s
        = Fore.YELLOW ++ "Warning! At least 1 response was None, which means we were unable to get any type of response. This could have happened because of an error.\nPlease manually verify the check for: " ++ domain ++ " - " ++ record_type ++ " record.\nPrimary NS: " ++ joinTruthy p ++ "\nSecondary NS: " ++ joinTruthy s ++ "\n" ∧
    (∀ q : List (Option String), joinTruthy (none :: q) = joinTruthy q) ∧
    joinTruthy [none] = "" := by
  refine ⟨?_, fun q => ?_, rfl⟩
  · unfold compare_dns_response
    rw [if_pos h]
  · simp [joinTruthy, List.filter_cons, truthy]

/-- C8 witness: concrete Warning pair `[none]` / `[some "x"]` produces
the message with the primary sequence rendered via `joinTruthy`. -/
theorem C8_warning_message_shape_witness :
    compare_dns_response "example.org" "A" [none] [some "x"]
        = Fore.YELLOW ++ "Warning! At least 1 response was None, which means we were unable to get any type of response. This could have happened because of an error.\nPlease manually verify the check for: " ++ "example.org" ++ " - " ++ "A" ++ " record.\nPrimary NS: " ++ joinTruthy [none] ++ "\nSecondary NS: " ++ joinTruthy [some "x"] ++ "\n" :=
  (C8_warning_message_shape "example.org" "A" [none] [some "x"] (Or.inl (by decide))).1

/-- C9: a line with two consecutive spaces after the domain parses
without failing: the second field is empty, so the record-type list is
the single empty-string token, and everything after the second space is
silently discarded. -/
theorem C9_double_space_line :
    get_line_data "example.org  A" = Except.ok ⟨"example.org", [""]⟩ ∧
    get_line_data "example.org  A B" = Except.ok ⟨"example.org", [""]⟩ ∧
    get_line_data "example.org A,MX junk" = Except.ok ⟨"example.org", ["A", "MX"]⟩ :=
  ⟨rfl, rfl, rfl⟩

/-- C10: `validate` short-circuits in the fixed order primary IP,
secondary IP, file readability: an invalid primary means the secondary
is never validated and the file never opened, and in every case at most
one failure message — the first failing check's — is reported. -/
theorem C10_validate_short_circuit (secondary_ok file_ok : Bool) :
    validate false secondary_ok file_ok
        = ([Check.primaryIp], some "Invalid IP for primary nameserver (-p flag)") ∧
    validate true false file_ok
        = ([Check.primaryIp, Check.secondaryIp],
            some "Invalid IP for secondary nameserver (-s flag)") ∧
    validate true true false
        = ([Check.primaryIp, Check.secondaryIp, Check.fileAccess],
            some "Unable to access input file (-f flag)") ∧
    validate true true true
        = ([Check.primaryIp, Check.secondaryIp, Check.fileAccess], none) :=
  ⟨rfl, rfl, rfl, rfl⟩

end DNSCompare
